import Mathlib

/-!
Shallow embedding of the MPV player dispatch module
(`viu_media/libs/player/mpv/player.py`) of the viu repository.

External collaborators that live outside the embedded file (the
environment-detection utility `detect.is_running_in_termux`, executable
discovery via `shutil.which`, the home directory used by
`os.path.expanduser`, the compiled patterns `TORRENT_REGEX` and
`YOUTUBE_REGEX` from `core.patterns`, and the text a spawned player
process writes to stdout) are modelled as fields of a `SysEnv` record
that is passed explicitly.  Regular-expression objects are modelled
semantically as a function `String → Nat → Bool` telling whether the
pattern matches starting at a given byte-index of the string; the
Python method `.match` anchors at index 0 and `.search` tries every
index, which is exactly how the two derived operations below are
defined.  Spawned OS processes are recorded as the list of command
token sequences handed to `subprocess`; a token is `Option String`
because Python code may place the unresolved executable (`None`) into
an argument list.
-/

/-- A command-line token handed to `subprocess`; `none` models Python `None`. -/
abbrev Tok := Option String

/-- A spawned command: the ordered token list handed to `subprocess.run` / `Popen`. -/
abbrev Cmd := List Tok

/-- Semantic model of a compiled regular expression: `r s i` holds when the
pattern matches the string `s` starting at index `i`. -/
abbrev RegexM := String → Nat → Bool

/-- Python `pattern.match(s)` truthiness: a match anchored at the start. -/
def re_match (r : RegexM) (s : String) : Bool := r s 0

/-- Python `pattern.search(s)` truthiness: a match starting anywhere. -/
def re_search (r : RegexM) (s : String) : Bool :=
  (List.range (s.length + 1)).any (fun i => r s i)

/-- Match a literal character sequence at the head of the input, returning the
rest on success (used to embed the fixed parts of `MPV_AV_TIME_PATTERN`). -/
def matchLit : List Char → List Char → Option (List Char)
  | [], cs => some cs
  | _ :: _, [] => none
  | p :: ps, c :: cs => if p = c then matchLit ps cs else none

/-- Character class `[0-9:]` of `MPV_AV_TIME_PATTERN`. -/
def timeChar (c : Char) : Bool := c.isDigit || c == ':'

/-- Whitespace stripped by Python `str.strip()`. -/
def pySpace (c : Char) : Bool :=
  c == ' ' || c == '\t' || c == '\n' || c == '\r' || c == '\x0b' || c == '\x0c'

/-- Python `str.strip()`: drop leading and trailing whitespace. -/
def pyStrip (s : String) : String :=
  String.mk (((s.data.dropWhile pySpace).reverse.dropWhile pySpace).reverse)

/-- Python `str.split(sep)` for a one-character separator (the module only
splits on `"\n"` and `","`): keeps empty fields, and yields `[""]` on the
empty string. -/
def pySplitAux (sep : Char) : List Char → List Char → List String
  | [], acc => [String.mk acc.reverse]
  | c :: cs, acc =>
    if c = sep then String.mk acc.reverse :: pySplitAux sep cs []
    else pySplitAux sep cs (c :: acc)

/-- Python `s.split(sep)` for a one-character separator. -/
def pySplit (sep : Char) (s : String) : List String := pySplitAux sep s.data []

/-- Attempt to match `MPV_AV_TIME_PATTERN`, the compiled pattern
`AV: ([0-9:]*) / ([0-9:]*) \(([0-9]*)%\)`, at the head of the character list,
returning the first two capture groups.  Greedy maximal munch of each
character class is equivalent to the backtracking semantics here because the
character that must follow each class (a space or a percent sign) is never a
member of the class. -/
def avMatchAt (cs : List Char) : Option (String × String) :=
  match matchLit ("AV: ".data) cs with
  | none => none
  | some r0 =>
    let g1 := r0.takeWhile timeChar
    let r1 := r0.dropWhile timeChar
    match matchLit (" / ".data) r1 with
    | none => none
    | some r2 =>
      let g2 := r2.takeWhile timeChar
      let r3 := r2.dropWhile timeChar
      match matchLit (" (".data) r3 with
      | none => none
      | some r4 =>
        let r5 := r4.dropWhile Char.isDigit
        match matchLit ("%)".data) r5 with
        | none => none
        | some _ => some (String.mk g1, String.mk g2)

/-- Leftmost search of `MPV_AV_TIME_PATTERN` over a character list. -/
def avSearchAux : List Char → Option (String × String)
  | [] => none
  | c :: cs =>
    match avMatchAt (c :: cs) with
    | some g => some g
    | none => avSearchAux cs

/-- Python `MPV_AV_TIME_PATTERN.search(line)` restricted to the first two
capture groups (the ones the player code reads). -/
def avSearch (s : String) : Option (String × String) := avSearchAux s.data

/-- Embedding of lines 112-121 of the source: walk the stdout lines in
reverse, strip each line, search for the AV-time marker, stop at the first
hit; return `(stop_time, total_time)` as optional strings. -/
def parseAvTimes (stdout : String) : Option String × Option String :=
  if stdout = "" then (none, none)
  else
    match ((pySplit '\n' stdout).reverse).findSome? (fun l => avSearch (pyStrip l)) with
    | some g => (some g.1, some g.2)
    | none => (none, none)

/-- The `MpvConfig` fields the module reads; Python `None`/empty-string
falsiness of both fields is modelled by the empty string. -/
structure MpvConfig where
  args : String := ""
  pre_args : String := ""
deriving Repr, DecidableEq

/-- The `PlayerParams` request value.  Optional text fields use `""` for
absent, `subtitles` is the ordered list of subtitle paths, `headers` the
insertion-ordered header mapping. -/
structure PlayerParams where
  url : String
  episode : String := ""
  query : String := ""
  title : String := ""
  start_time : String := ""
  subtitles : List String := []
  headers : List (String × String) := []
  syncplay : Bool := false
deriving Repr, DecidableEq

/-- The `PlayerResult` value: episode identifier plus optional total and
stop times. -/
structure PlayerResult where
  episode : String
  total_time : Option String := none
  stop_time : Option String := none
deriving Repr, DecidableEq

/-- External collaborators of the module, passed explicitly. -/
structure SysEnv where
  /-- Result of `detect.is_running_in_termux()`. -/
  is_running_in_termux : Bool
  /-- Home directory used by `os.path.expanduser`. -/
  home : String := "~"
  /-- Result of `shutil.which("mpv")` taken in `__init__`. -/
  mpv_exe : Option String := none
  /-- Result of `shutil.which("webtorrent")`. -/
  webtorrent_exe : Option String := none
  /-- Result of `shutil.which("syncplay")`. -/
  syncplay_exe : Option String := none
  /-- Semantic model of `TORRENT_REGEX` (defined outside this module). -/
  torrent_regex : RegexM := fun _ _ => false
  /-- Semantic model of `YOUTUBE_REGEX` (defined outside this module). -/
  youtube_regex : RegexM := fun _ _ => false
  /-- Text the directly-spawned player process writes to stdout. -/
  mpv_stdout : String := ""

deriving instance DecidableEq for Except

/-- Outcome of a `play` call: the commands spawned (in order) and either the
message of the raised `ViuError` or the returned `PlayerResult`. -/
structure PlayOutcome where
  spawned : List Cmd
  result : Except String PlayerResult
deriving Repr, DecidableEq

namespace MpvPlayer

/-- `os.path.expanduser("~/.config/mpv")`. -/
def mpv_config_dir (env : SysEnv) : String := env.home ++ "/.config/mpv"

/-- Embedding of `_create_mpv_cli_options`. -/
def create_mpv_cli_options (cfg : MpvConfig) (p : PlayerParams) :
    List String :=
  let a0 : List String := []
  let a1 := if p.headers = [] then a0 else
    a0 ++ ["--http-header-fields=" ++
      String.intercalate "," (p.headers.map (fun kv => kv.1 ++ ":" ++ kv.2))]
  let a2 := a1 ++ p.subtitles.map (fun sub => "--sub-file=" ++ sub)
  let a3 := if p.start_time = "" then a2 else a2 ++ ["--start=" ++ p.start_time]
  let a4 := if p.title = "" then a3 else a3 ++ ["--title=" ++ p.title]
  if cfg.args = "" then a4 else a4 ++ pySplit ',' cfg.args

/-- Embedding of `_base_mpv_args`: the executable slot is the raw
`self.executable` field, which may be `None`. -/
def base_mpv_args (env : SysEnv) (cfg : MpvConfig) (p : PlayerParams) : Cmd :=
  [env.mpv_exe, some ("--config-dir=" ++ mpv_config_dir env), some p.url] ++
    (create_mpv_cli_options cfg p).map some

/-- Embedding of `_pre_args`. -/
def pre_args (cfg : MpvConfig) : List String :=
  if cfg.pre_args = "" then [] else pySplit ',' cfg.pre_args

/-- Embedding of `_play_on_mobile`: dispatch an Android intent to the
YouTube component when `YOUTUBE_REGEX` matches the URL, else to the mobile
mpv component; the result carries only the episode. -/
def play_on_mobile (env : SysEnv) (p : PlayerParams) : PlayOutcome :=
  let args : List String :=
    if re_match env.youtube_regex p.url then
      ["nohup", "am", "start", "--user", "0", "-a",
       "android.intent.action.VIEW", "-d", p.url, "-n",
       "com.google.android.youtube/.UrlActivity"]
    else
      ["nohup", "am", "start", "--user", "0", "-a",
       "android.intent.action.VIEW", "-d", p.url, "-n",
       "is.xyz.mpv/.MPVActivity"]
  { spawned := [args.map some], result := .ok { episode := p.episode } }

/-- Embedding of `_stream_on_desktop_with_webtorrent_cli`. -/
def stream_on_desktop_with_webtorrent_cli (env : SysEnv) (cfg : MpvConfig)
    (p : PlayerParams) : PlayOutcome :=
  match env.webtorrent_exe with
  | none => { spawned := [], result := .error "Please install webtorrent-cli" }
  | some w =>
    let mpv_args := create_mpv_cli_options cfg p
    let args : List String :=
      if mpv_args = [] then [w, p.url, "--mpv"]
      else [w, p.url, "--mpv"] ++ ["--player-args"] ++ mpv_args
    { spawned := [args.map some], result := .ok { episode := p.episode } }

/-- Embedding of `_stream_on_desktop_with_syncplay`. -/
def stream_on_desktop_with_syncplay (env : SysEnv) (cfg : MpvConfig)
    (p : PlayerParams) : PlayOutcome :=
  match env.syncplay_exe with
  | none => { spawned := [], result := .error "Please install syncplay" }
  | some s =>
    let mpv_args := base_mpv_args env cfg p
    let args : Cmd :=
      if mpv_args = [] then [some s, some p.url]
      else [some s, some p.url] ++ (some "--" :: mpv_args)
    { spawned := [args], result := .ok { episode := p.episode } }

/-- Embedding of `_stream_on_desktop_with_subprocess`: spawn the player,
parse `(stop_time, total_time)` from its stdout. -/
def stream_on_desktop_with_subprocess (env : SysEnv) (cfg : MpvConfig)
    (p : PlayerParams) : PlayOutcome :=
  let cmd : Cmd := (pre_args cfg).map some ++ base_mpv_args env cfg p
  let times := parseAvTimes env.mpv_stdout
  { spawned := [cmd],
    result := .ok { episode := p.episode, total_time := times.2, stop_time := times.1 } }

/-- Embedding of `_play_on_desktop`: executable guard first, then the
torrent-search branch, then the syncplay branch, else direct playback. -/
def play_on_desktop (env : SysEnv) (cfg : MpvConfig) (p : PlayerParams) :
    PlayOutcome :=
  if env.mpv_exe = none then
    { spawned := [], result := .error "MPV executable not found in PATH." }
  else if re_search env.torrent_regex p.url then
    stream_on_desktop_with_webtorrent_cli env cfg p
  else if p.syncplay then
    stream_on_desktop_with_syncplay env cfg p
  else
    stream_on_desktop_with_subprocess env cfg p

/-- Embedding of `play`: the two termux guards (note the anchored
`TORRENT_REGEX.match`), then the mobile path, else the desktop path. -/
def play (env : SysEnv) (cfg : MpvConfig) (p : PlayerParams) : PlayOutcome :=
  if re_match env.torrent_regex p.url && env.is_running_in_termux then
    { spawned := [], result := .error "Unable to play torrents on termux" }
  else if p.syncplay && env.is_running_in_termux then
    { spawned := [], result := .error "Unable to play with syncplay on termux" }
  else if env.is_running_in_termux then
    play_on_mobile env p
  else
    play_on_desktop env cfg p

/-- Embedding of `play_with_ipc`: returns the token list handed to
`subprocess.Popen`.  There is no executable guard and no failure path: the
raw `self.executable` field (possibly `None`) is the first player token. -/
def play_with_ipc (env : SysEnv) (cfg : MpvConfig) (p : PlayerParams)
    (socket_path : String) : Cmd :=
  (pre_args cfg).map some ++
    ([env.mpv_exe,
      some ("--input-ipc-server=" ++ socket_path),
      some "--idle=yes",
      some "--force-window=yes",
      some ("--config-dir=" ++ mpv_config_dir env),
      some p.url] ++
     (create_mpv_cli_options cfg p).map some)

end MpvPlayer

/-- Built from the words of section 4.2 of the spec (to be compared with
`MpvPlayer.create_mpv_cli_options`): headers flag, subtitle flags in input
order, start-time flag, title flag, then the comma-split configured extra
arguments. -/
def argumentBuilderSpec (cfg : MpvConfig) (p : PlayerParams) : List String :=
  (if p.headers = [] then [] else
    ["--http-header-fields=" ++
      String.intercalate "," (p.headers.map (fun kv => kv.1 ++ ":" ++ kv.2))]) ++
  p.subtitles.map (fun sub => "--sub-file=" ++ sub) ++
  (if p.start_time = "" then [] else ["--start=" ++ p.start_time]) ++
  (if p.title = "" then [] else ["--title=" ++ p.title]) ++
  (if cfg.args = "" then [] else pySplit ',' cfg.args)

/-- Token list the claim describes for the IPC launch: the `--config-dir`
token placed before the IPC-server, idle and force-window tokens (built from
the words of the claim, to be compared with `MpvPlayer.play_with_ipc`). -/
def ipc_cmd_claimed (env : SysEnv) (cfg : MpvConfig) (p : PlayerParams)
    (socket_path : String) : Cmd :=
  (MpvPlayer.pre_args cfg).map some ++
    ([env.mpv_exe,
      some ("--config-dir=" ++ MpvPlayer.mpv_config_dir env),
      some ("--input-ipc-server=" ++ socket_path),
      some "--idle=yes",
      some "--force-window=yes",
      some p.url] ++
     (MpvPlayer.create_mpv_cli_options cfg p).map some)

/-- Concrete regex model used by witnesses: the pattern occurs at index `i`
exactly when `"magnet:"` starts there. -/
def magnetAt : RegexM := fun s i => "magnet:".data.isPrefixOf (s.data.drop i)

/-- Concrete regex model used by witnesses: the pattern occurs at index `i`
exactly when `"https://youtube.com"` starts there. -/
def ytAt : RegexM := fun s i => "https://youtube.com".data.isPrefixOf (s.data.drop i)

/-- Helper: `findSome?` misses when the function misses every element. -/
theorem findSome_eq_none_of_all {α β : Type} (f : α → Option β) :
    ∀ l : List α, (∀ x ∈ l, f x = none) → l.findSome? f = none
  | [], _ => rfl
  | a :: l, h => by
    have ha : f a = none := h a (by simp)
    have hrest := findSome_eq_none_of_all f l (fun x hx => h x (by simp [hx]))
    simp [List.findSome?_cons, ha, hrest]

/-- Helper: `findSome?` over an append tries the left part first. -/
theorem findSome_append {α β : Type} (f : α → Option β) :
    ∀ l₁ l₂ : List α, (l₁ ++ l₂).findSome? f =
      match l₁.findSome? f with
      | some b => some b
      | none => l₂.findSome? f
  | [], l₂ => by simp [List.findSome?_nil]
  | a :: l₁, l₂ => by
    cases hfa : f a with
    | some b => simp [List.findSome?_cons, hfa]
    | none => simp [List.findSome?_cons, hfa, findSome_append f l₁ l₂]

/-- Helper: scanning a reversed list, `findSome?` returns the value at the
highest index whose image is `some`, provided every later index misses. -/
theorem reverse_findSome_of_last {α β : Type} (f : α → Option β) :
    ∀ (l : List α) (i : Nat) (hi : i < l.length) (b : β),
      f (l.get ⟨i, hi⟩) = some b →
      (∀ (j : Nat) (hj : j < l.length), i < j → f (l.get ⟨j, hj⟩) = none) →
      l.reverse.findSome? f = some b
  | [], i, hi, b, _, _ => absurd hi (by simp)
  | a :: l, 0, hi, b, hb, hafter => by
    have hnone : ∀ x ∈ l.reverse, f x = none := by
      intro x hx
      rw [List.mem_reverse] at hx
      obtain ⟨j, hj, rfl⟩ := List.mem_iff_get.mp hx
      exact hafter (j + 1) (by simp) (Nat.succ_pos j)
    have h1 : l.reverse.findSome? f = none := findSome_eq_none_of_all f l.reverse hnone
    have hfa : f a = some b := hb
    simp [List.reverse_cons, findSome_append, h1, List.findSome?_cons, hfa]
  | a :: l, i + 1, hi, b, hb, hafter => by
    have hi' : i < l.length := Nat.lt_of_succ_lt_succ hi
    have ih := reverse_findSome_of_last f l i hi' b hb
      (fun j hj hlt => hafter (j + 1) (Nat.succ_lt_succ hj) (Nat.succ_lt_succ hlt))
    simp [List.reverse_cons, findSome_append, ih]

/-- C7: the progress parser scans the split lines in reverse, returns the
elapsed/total pair of the chronologically last line containing the
`AV: <elapsed> / <total> (<percent>%)` marker, and returns `(none, none)`
when no line matches; it is a total function, so it never raises. -/
theorem parseAvTimes_last_marker (text : String) (lines : List String)
    (hl : lines = pySplit '\n' text) :
    ((∀ l ∈ lines, avSearch (pyStrip l) = none) → parseAvTimes text = (none, none)) ∧
    (∀ (i : Nat) (hi : i < lines.length) (e t : String),
      avSearch (pyStrip (lines.get ⟨i, hi⟩)) = some (e, t) →
      (∀ (j : Nat) (hj : j < lines.length), i < j →
        avSearch (pyStrip (lines.get ⟨j, hj⟩)) = none) →
      parseAvTimes text = (some e, some t)) := by
  subst hl
  by_cases hempty : text = ""
  · subst hempty
    constructor
    · intro _
      rfl
    · intro i hi e t hsome _
      have hi' : i = 0 := by
        have : (pySplit '\n' "").length = 1 := rfl
        omega
      subst hi'
      have : avSearch (pyStrip ((pySplit '\n' "").get ⟨0, hi⟩)) = none := rfl
      rw [this] at hsome
      exact absurd hsome (by simp)
  · constructor
    · intro hall
      have hnone : ((pySplit '\n' text).reverse).findSome?
          (fun l => avSearch (pyStrip l)) = none := by
        refine findSome_eq_none_of_all _ _ ?_
        intro x hx
        exact hall x (List.mem_reverse.mp hx)
      simp [parseAvTimes, hempty, hnone]
    · intro i hi e t hsome hafter
      have hfound : ((pySplit '\n' text).reverse).findSome?
          (fun l => avSearch (pyStrip l)) = some (e, t) :=
        reverse_findSome_of_last _ _ i hi (e, t) hsome hafter
      simp [parseAvTimes, hempty, hfound]

/-- Witness for C7: the round-trip example of the spec, where the later
marker line wins. -/
theorem parseAvTimes_last_marker_witness :
    parseAvTimes "AV: 00:01:00 / 00:10:00 (10%)\nAV: 00:02:30 / 00:10:00 (25%)" =
      (some "00:02:30", some "00:10:00") :=
  (parseAvTimes_last_marker
    "AV: 00:01:00 / 00:10:00 (10%)\nAV: 00:02:30 / 00:10:00 (25%)"
    ["AV: 00:01:00 / 00:10:00 (10%)", "AV: 00:02:30 / 00:10:00 (25%)"]
    (by decide)).2 1 (by decide) "00:02:30" "00:10:00" (by decide)
    (fun j hj hlt => absurd hlt (by have h2 : j < 2 := hj; omega))

/-- C1: on mobile (termux), a torrent-matching URL or the syncplay flag makes
`play` raise the corresponding `ViuError` before any process is spawned. -/
theorem play_mobile_guards (env : SysEnv) (cfg : MpvConfig) (p : PlayerParams)
    (hterm : env.is_running_in_termux = true)
    (h : re_match env.torrent_regex p.url = true ∨ p.syncplay = true) :
    (MpvPlayer.play env cfg p).spawned = [] ∧
      ((MpvPlayer.play env cfg p).result = .error "Unable to play torrents on termux" ∨
       (MpvPlayer.play env cfg p).result = .error "Unable to play with syncplay on termux") := by
  by_cases hm : re_match env.torrent_regex p.url = true
  · simp [MpvPlayer.play, hm, hterm]
  · rcases h with h | h
    · exact absurd h hm
    · simp [MpvPlayer.play, hm, hterm, h, Bool.and_false]

/-- Witness for C1 at a magnet URL on termux. -/
theorem play_mobile_guards_witness :
    (MpvPlayer.play { is_running_in_termux := true, torrent_regex := magnetAt }
      {} { url := "magnet:?xt=abc" }).spawned = [] ∧
      ((MpvPlayer.play { is_running_in_termux := true, torrent_regex := magnetAt }
        {} { url := "magnet:?xt=abc" }).result = .error "Unable to play torrents on termux" ∨
       (MpvPlayer.play { is_running_in_termux := true, torrent_regex := magnetAt }
        {} { url := "magnet:?xt=abc" }).result = .error "Unable to play with syncplay on termux") :=
  play_mobile_guards _ {} _ rfl (Or.inl (by decide))

/-- C2: on desktop, a missing player executable makes `play` fail with the
executable-not-found error and spawn nothing, whatever the request holds. -/
theorem play_desktop_missing_executable (env : SysEnv) (cfg : MpvConfig)
    (p : PlayerParams)
    (hterm : env.is_running_in_termux = false)
    (hexe : env.mpv_exe = none) :
    MpvPlayer.play env cfg p =
      { spawned := [], result := .error "MPV executable not found in PATH." } := by
  simp [MpvPlayer.play, MpvPlayer.play_on_desktop, hterm, hexe]

/-- Witness for C2 at a torrent URL with the syncplay flag set. -/
theorem play_desktop_missing_executable_witness :
    MpvPlayer.play { is_running_in_termux := false, torrent_regex := magnetAt }
      {} { url := "magnet:?xt=abc", syncplay := true } =
      { spawned := [], result := .error "MPV executable not found in PATH." } :=
  play_desktop_missing_executable _ {} _ rfl rfl

/-- C8: on mobile past both guards, the intent dispatch targets the YouTube
activity when `YOUTUBE_REGEX` matches the URL and the generic mpv activity
otherwise; either way the result carries only the episode identifier. -/
theorem play_mobile_dispatch (env : SysEnv) (cfg : MpvConfig) (p : PlayerParams)
    (hterm : env.is_running_in_termux = true)
    (hm : re_match env.torrent_regex p.url = false)
    (hs : p.syncplay = false) :
    (re_match env.youtube_regex p.url = true →
      MpvPlayer.play env cfg p =
        { spawned := [[some "nohup", some "am", some "start", some "--user",
            some "0", some "-a", some "android.intent.action.VIEW", some "-d",
            some p.url, some "-n", some "com.google.android.youtube/.UrlActivity"]],
          result := .ok ⟨p.episode, none, none⟩ }) ∧
    (re_match env.youtube_regex p.url = false →
      MpvPlayer.play env cfg p =
        { spawned := [[some "nohup", some "am", some "start", some "--user",
            some "0", some "-a", some "android.intent.action.VIEW", some "-d",
            some p.url, some "-n", some "is.xyz.mpv/.MPVActivity"]],
          result := .ok ⟨p.episode, none, none⟩ }) := by
  constructor
  · intro hyt
    simp [MpvPlayer.play, MpvPlayer.play_on_mobile, hterm, hm, hs, hyt]
  · intro hyt
    simp [MpvPlayer.play, MpvPlayer.play_on_mobile, hterm, hm, hs, hyt]

/-- Witness for C8 at a YouTube URL on termux. -/
theorem play_mobile_dispatch_witness :
    MpvPlayer.play
      { is_running_in_termux := true, torrent_regex := magnetAt, youtube_regex := ytAt }
      {} { url := "https://youtube.com/watch?v=1", episode := "e1" } =
      { spawned := [[some "nohup", some "am", some "start", some "--user",
          some "0", some "-a", some "android.intent.action.VIEW", some "-d",
          some "https://youtube.com/watch?v=1", some "-n",
          some "com.google.android.youtube/.UrlActivity"]],
        result := .ok ⟨"e1", none, none⟩ } :=
  (play_mobile_dispatch _ {} _ rfl (by decide) rfl).1 (by decide)

/-- C5: on desktop with a torrent-matching URL, a missing webtorrent tool
fails with the message naming it before any spawn; a present tool is spawned
as `[tool, url, "--mpv"]` with `["--player-args"]` and the option tokens
appended exactly when options exist, and the result carries only the
episode identifier. -/
theorem play_desktop_torrent (env : SysEnv) (cfg : MpvConfig) (p : PlayerParams)
    (m : String)
    (hterm : env.is_running_in_termux = false)
    (hexe : env.mpv_exe = some m)
    (hsearch : re_search env.torrent_regex p.url = true) :
    (env.webtorrent_exe = none →
      MpvPlayer.play env cfg p =
        { spawned := [], result := .error "Please install webtorrent-cli" }) ∧
    (∀ w : String, env.webtorrent_exe = some w →
      MpvPlayer.play env cfg p =
        { spawned := [List.map some ([w, p.url, "--mpv"] ++
            (if MpvPlayer.create_mpv_cli_options cfg p = [] then []
             else "--player-args" :: MpvPlayer.create_mpv_cli_options cfg p))],
          result := .ok ⟨p.episode, none, none⟩ }) := by
  constructor
  · intro hweb
    simp [MpvPlayer.play, MpvPlayer.play_on_desktop,
      MpvPlayer.stream_on_desktop_with_webtorrent_cli, hterm, hexe, hsearch, hweb]
  · intro w hweb
    by_cases hopts : MpvPlayer.create_mpv_cli_options cfg p = []
    · simp [MpvPlayer.play, MpvPlayer.play_on_desktop,
        MpvPlayer.stream_on_desktop_with_webtorrent_cli, hterm, hexe, hsearch,
        hweb, hopts]
    · simp [MpvPlayer.play, MpvPlayer.play_on_desktop,
        MpvPlayer.stream_on_desktop_with_webtorrent_cli, hterm, hexe, hsearch,
        hweb, hopts]

/-- Witness for C5: webtorrent present, one option token, desktop. -/
theorem play_desktop_torrent_witness :
    MpvPlayer.play
      { is_running_in_termux := false, mpv_exe := some "mpv",
        webtorrent_exe := some "webtorrent", torrent_regex := magnetAt }
      {} { url := "magnet:?xt=abc", episode := "e2", start_time := "10" } =
      { spawned := [[some "webtorrent", some "magnet:?xt=abc", some "--mpv",
          some "--player-args", some "--start=10"]],
        result := .ok ⟨"e2", none, none⟩ } := by
  have h := (play_desktop_torrent
    { is_running_in_termux := false, mpv_exe := some "mpv",
      webtorrent_exe := some "webtorrent", torrent_regex := magnetAt }
    {} { url := "magnet:?xt=abc", episode := "e2", start_time := "10" }
    "mpv" rfl rfl (by decide)).2 "webtorrent" rfl
  exact h.trans (by decide)

/-- Counterexample to C3: a desktop syncplay request with no player option
tokens still gets the `--` separator, followed by the full base player
argument list (executable, config-dir flag, URL) — not the bare
`[tool, url]` command the claim describes. -/
theorem syncplay_claim_counterexample :
    (MpvPlayer.play
      { is_running_in_termux := false, home := "/h", mpv_exe := some "mpv",
        syncplay_exe := some "syncplay" }
      {} { url := "http://v", syncplay := true }).spawned =
      [[some "syncplay", some "http://v", some "--", some "mpv",
        some "--config-dir=/h/.config/mpv", some "http://v"]] ∧
    (MpvPlayer.play
      { is_running_in_termux := false, home := "/h", mpv_exe := some "mpv",
        syncplay_exe := some "syncplay" }
      {} { url := "http://v", syncplay := true }).spawned ≠
      [[some "syncplay", some "http://v"]] := by
  decide

/-- C3 as amended: on desktop with syncplay requested, a non-torrent URL and
the tool present, the spawned command is always
`[tool, url, "--", player, "--config-dir=<dir>", url]` followed by the
option tokens (the base player argument list is never empty, so the `--`
branch is always taken), and the result carries only the episode. -/
theorem play_desktop_syncplay_amended (env : SysEnv) (cfg : MpvConfig)
    (p : PlayerParams) (m s : String)
    (hterm : env.is_running_in_termux = false)
    (hexe : env.mpv_exe = some m)
    (hsearch : re_search env.torrent_regex p.url = false)
    (hsync : p.syncplay = true)
    (htool : env.syncplay_exe = some s) :
    MpvPlayer.play env cfg p =
      { spawned := [[some s, some p.url, some "--", some m,
          some ("--config-dir=" ++ env.home ++ "/.config/mpv"), some p.url] ++
          (MpvPlayer.create_mpv_cli_options cfg p).map some],
        result := .ok ⟨p.episode, none, none⟩ } := by
  simp [MpvPlayer.play, MpvPlayer.play_on_desktop,
    MpvPlayer.stream_on_desktop_with_syncplay, MpvPlayer.base_mpv_args,
    MpvPlayer.mpv_config_dir, hterm, hexe, hsearch, hsync, htool,
    String.append_assoc]

/-- Witness for the amended C3. -/
theorem play_desktop_syncplay_amended_witness :
    MpvPlayer.play
      { is_running_in_termux := false, home := "/h", mpv_exe := some "mpv",
        syncplay_exe := some "syncplay" }
      { args := "-x,-y" } { url := "http://v", episode := "e3", syncplay := true } =
      { spawned := [[some "syncplay", some "http://v", some "--", some "mpv",
          some "--config-dir=/h/.config/mpv", some "http://v", some "-x", some "-y"]],
        result := .ok ⟨"e3", none, none⟩ } := by
  have h := play_desktop_syncplay_amended
    { is_running_in_termux := false, home := "/h", mpv_exe := some "mpv",
      syncplay_exe := some "syncplay" }
    { args := "-x,-y" } { url := "http://v", episode := "e3", syncplay := true }
    "mpv" "syncplay" rfl rfl (by decide) rfl rfl
  exact h.trans (by decide)

/-- Counterexample to C4: the built IPC command places `--config-dir` after
the IPC-server, idle and force-window tokens, so it differs from the
claimed token order (`ipc_cmd_claimed`) at a concrete input. -/
theorem ipc_claim_counterexample :
    MpvPlayer.play_with_ipc
      { is_running_in_termux := false, home := "/home/u", mpv_exe := some "mpv" }
      {} { url := "http://v" } "/tmp/s" =
      [some "mpv", some "--input-ipc-server=/tmp/s", some "--idle=yes",
       some "--force-window=yes", some "--config-dir=/home/u/.config/mpv",
       some "http://v"] ∧
    MpvPlayer.play_with_ipc
      { is_running_in_termux := false, home := "/home/u", mpv_exe := some "mpv" }
      {} { url := "http://v" } "/tmp/s" ≠
      ipc_cmd_claimed
        { is_running_in_termux := false, home := "/home/u", mpv_exe := some "mpv" }
        {} { url := "http://v" } "/tmp/s" := by
  decide

/-- C4 as amended: for every request and control-channel path, the IPC
command is the configured command-prefix tokens, then the player token, then
`--input-ipc-server=<path>`, `--idle=yes`, `--force-window=yes`,
`--config-dir=<dir>`, the URL, and finally the per-request option flags. -/
theorem play_with_ipc_command_amended (env : SysEnv) (cfg : MpvConfig)
    (p : PlayerParams) (socket_path : String) :
    MpvPlayer.play_with_ipc env cfg p socket_path =
      (MpvPlayer.pre_args cfg).map some ++
      [env.mpv_exe,
       some ("--input-ipc-server=" ++ socket_path),
       some "--idle=yes",
       some "--force-window=yes",
       some ("--config-dir=" ++ env.home ++ "/.config/mpv"),
       some p.url] ++
      (MpvPlayer.create_mpv_cli_options cfg p).map some := by
  simp [MpvPlayer.play_with_ipc, MpvPlayer.mpv_config_dir, String.append_assoc]

/-- C6: the option builder is deterministic and produces exactly the
spec-side token order `argumentBuilderSpec`: headers flag, subtitle flags in
input order, start-time flag, title flag, comma-split extra arguments. -/
theorem create_mpv_cli_options_ordered :
    (∀ (cfg : MpvConfig) (p : PlayerParams),
      MpvPlayer.create_mpv_cli_options cfg p = argumentBuilderSpec cfg p) ∧
    (∀ (cfg₁ cfg₂ : MpvConfig) (p₁ p₂ : PlayerParams), cfg₁ = cfg₂ → p₁ = p₂ →
      MpvPlayer.create_mpv_cli_options cfg₁ p₁ =
        MpvPlayer.create_mpv_cli_options cfg₂ p₂) := by
  constructor
  · intro cfg p
    by_cases h1 : p.headers = [] <;>
      by_cases h2 : p.start_time = "" <;>
        by_cases h3 : p.title = "" <;>
          by_cases h4 : cfg.args = "" <;>
            simp [MpvPlayer.create_mpv_cli_options, argumentBuilderSpec,
              h1, h2, h3, h4]
  · intro cfg₁ cfg₂ p₁ p₂ hc hp
    subst hc
    subst hp
    rfl

/-- Witness for C6 at a concrete configuration and request. -/
theorem create_mpv_cli_options_ordered_witness :
    MpvPlayer.create_mpv_cli_options { args := "-x,-y" }
        { url := "u", headers := [("A", "1"), ("B", "2")],
          subtitles := ["s1", "s2"], start_time := "10", title := "T" } =
      argumentBuilderSpec { args := "-x,-y" }
        { url := "u", headers := [("A", "1"), ("B", "2")],
          subtitles := ["s1", "s2"], start_time := "10", title := "T" } ∧
    MpvPlayer.create_mpv_cli_options { args := "-x,-y" }
        { url := "u", headers := [("A", "1"), ("B", "2")],
          subtitles := ["s1", "s2"], start_time := "10", title := "T" } =
      MpvPlayer.create_mpv_cli_options { args := "-x,-y" }
        { url := "u", headers := [("A", "1"), ("B", "2")],
          subtitles := ["s1", "s2"], start_time := "10", title := "T" } :=
  ⟨create_mpv_cli_options_ordered.1 _ _,
   create_mpv_cli_options_ordered.2 _ _ _ _ rfl rfl⟩

/-- C9: the mobile guard applies the torrent pattern anchored (`match`)
while the desktop branch applies it anywhere (`search`), so a URL whose only
pattern occurrence is after its start is dispatched as a mobile intent on
termux yet takes the webtorrent delegation path on desktop. -/
theorem torrent_match_vs_search (env : SysEnv) (cfg : MpvConfig)
    (p : PlayerParams)
    (hm : re_match env.torrent_regex p.url = false)
    (hs : re_search env.torrent_regex p.url = true)
    (hsync : p.syncplay = false)
    (hexe : env.mpv_exe ≠ none) :
    (MpvPlayer.play { env with is_running_in_termux := true } cfg p =
       MpvPlayer.play_on_mobile { env with is_running_in_termux := true } p ∧
     (MpvPlayer.play { env with is_running_in_termux := true } cfg p).result =
       .ok ⟨p.episode, none, none⟩) ∧
    MpvPlayer.play { env with is_running_in_termux := false } cfg p =
      MpvPlayer.stream_on_desktop_with_webtorrent_cli
        { env with is_running_in_termux := false } cfg p := by
  refine ⟨⟨?_, ?_⟩, ?_⟩
  · simp [MpvPlayer.play, hm, hsync]
  · simp [MpvPlayer.play, MpvPlayer.play_on_mobile, hm, hsync]
  · simp [MpvPlayer.play, MpvPlayer.play_on_desktop, hm, hs, hsync, hexe]

/-- Witness for C9: a URL containing `magnet:` only after its start takes
the webtorrent delegation path on desktop. -/
theorem torrent_match_vs_search_witness :
    MpvPlayer.play
      { is_running_in_termux := false, mpv_exe := some "mpv",
        webtorrent_exe := some "wt", torrent_regex := magnetAt }
      {} { url := "https://example.com/magnet:abc" } =
      MpvPlayer.stream_on_desktop_with_webtorrent_cli
        { is_running_in_termux := false, mpv_exe := some "mpv",
          webtorrent_exe := some "wt", torrent_regex := magnetAt }
        {} { url := "https://example.com/magnet:abc" } :=
  (torrent_match_vs_search
    { is_running_in_termux := false, mpv_exe := some "mpv",
      webtorrent_exe := some "wt", torrent_regex := magnetAt }
    {} { url := "https://example.com/magnet:abc" }
    (by decide) (by decide) rfl (by decide)).2

/-- C10: `play_with_ipc` never checks executable discovery: with the
executable unresolved the command is still built and handed to the spawn,
with `none` as the first player token (the head of the whole command when no
command-prefix tokens are configured). -/
theorem play_with_ipc_unguarded (env : SysEnv) (cfg : MpvConfig)
    (p : PlayerParams) (socket_path : String)
    (hexe : env.mpv_exe = none) :
    MpvPlayer.play_with_ipc env cfg p socket_path =
      (MpvPlayer.pre_args cfg).map some ++
      (none :: ([some ("--input-ipc-server=" ++ socket_path),
        some "--idle=yes",
        some "--force-window=yes",
        some ("--config-dir=" ++ env.home ++ "/.config/mpv"),
        some p.url] ++
       (MpvPlayer.create_mpv_cli_options cfg p).map some)) ∧
    (cfg.pre_args = "" →
      (MpvPlayer.play_with_ipc env cfg p socket_path).head? = some none) := by
  constructor
  · simp [MpvPlayer.play_with_ipc, MpvPlayer.mpv_config_dir, hexe,
      String.append_assoc]
  · intro hpre
    simp [MpvPlayer.play_with_ipc, MpvPlayer.pre_args, hpre, hexe]

/-- Witness for C10 with an absent executable and default configuration. -/
theorem play_with_ipc_unguarded_witness :
    MpvPlayer.play_with_ipc { is_running_in_termux := false, home := "/h" }
        {} { url := "http://v" } "/tmp/s" =
      [none, some "--input-ipc-server=/tmp/s", some "--idle=yes",
       some "--force-window=yes", some "--config-dir=/h/.config/mpv",
       some "http://v"] ∧
    (MpvPlayer.play_with_ipc { is_running_in_termux := false, home := "/h" }
        {} { url := "http://v" } "/tmp/s").head? = some none := by
  have h := play_with_ipc_unguarded { is_running_in_termux := false, home := "/h" }
    {} { url := "http://v" } "/tmp/s" rfl
  exact ⟨h.1.trans (by decide), h.2 rfl⟩
